import Mathlib

/-!
Shallow embedding of `src/securiti-Esquecimento-DPO-PE.py`.

The Python module drives a privacy-platform "right to be forgotten" ticket:
for every subtask it POSTs an update (`update_subtask`), then polls a
reporting query (`was_subtask_removed`) until the platform confirms removal,
and on a definitive failure notifies two chat channels
(`process_subtasks`, `send_teams_notification`,
`send_google_chat_notification`); `main` wires parsing, secret retrieval and
the orchestrator together.

Modelling conventions:
* every outbound HTTP call's outcome is an input of the model (an oracle
  function from the attempt index to a transport result), since the network
  is external;
* a Python exception that no handler in the file catches is `Except.error`;
* side effects that the claims talk about (POST attempts, verification
  polls, `time.sleep`, notification dispatches, secret fetches) are recorded
  in an explicit action trace;
* `RETRIES` (source line 13, default 3) is the `retries` parameter; it
  bounds both the outer update loop (line 239) and the verification loop
  (line 261).
-/

namespace Securiti

/-- Outcome of one `requests.post` to the update endpoint (source lines
247-252): a transport timeout, another request-layer exception, or an HTTP
response carrying its status code, the parsed body's `status` field
(`response.json().get("status")`, `none` when the key is absent) and the
raw `response.text`. -/
inductive UpdateResult where
  | timeout
  | reqException (err : String)
  | response (statusCode : Nat) (bodyStatus : Option Int) (text : String)
deriving DecidableEq

/-- Parsed JSON body of a 200 verification response (source line 200).
`rows n` means `response.json()["data"][0].get("total_subtasks", 0) = n`
(the `.get` default 0 is already applied); `malformed exc` means evaluating
that expression raises `exc` (missing `"data"` key, empty `data` array, or
an unparsable body), an exception outside the two handled
`requests.exceptions` classes. -/
inductive VerifyBody where
  | rows (totalSubtasks : Int)
  | malformed (exc : String)
deriving DecidableEq

/-- Outcome of the one `requests.post` issued by `was_subtask_removed`
(source lines 185-191). -/
inductive VerifyResult where
  | timeout
  | reqException (err : String)
  | response (statusCode : Nat) (text : String) (body : VerifyBody)
deriving DecidableEq

/-- `was_subtask_removed` (source lines 168-231): classifies the single
verification query. Non-200 status returns `(False, response.text)`
(line 199); a 200 whose first data row has `total_subtasks == 1` returns
`(True, "")` (line 207); any other count returns `(False, response.text)`
(line 215); `Timeout` returns `(False, "Processing timeout")` (line 223);
any other `RequestException` returns `(False, str(err))` (line 231).
A malformed 200 body raises an exception the function's handlers do not
catch, modelled by `Except.error`. -/
def was_subtask_removed (r : VerifyResult) : Except String (Bool × String) :=
  match r with
  | .timeout => .ok (false, "Processing timeout")
  | .reqException err => .ok (false, err)
  | .response statusCode text body =>
    if statusCode ≠ 200 then
      .ok (false, text)
    else
      match body with
      | .malformed exc => .error exc
      | .rows n => if n = 1 then .ok (true, "") else .ok (false, text)

/-- One observable step of `update_subtask`: an update POST (attempt `i`,
0-based), a verification poll (check attempt `i`), or a `time.sleep t`. -/
inductive Action where
  | updAttempt (i : Nat)
  | verPoll (i : Nat)
  | sleep (t : Nat)
deriving DecidableEq

/-- The verification loop of `update_subtask` (source lines 261-285):
`for check_attempt in range(RETRIES)` calls `was_subtask_removed`; on
success returns `(True, "")` (line 270); otherwise sleeps 5 and continues
(line 277); on exhaustion returns
`(False, "Subtask not removed after retries.")` (lines 284-285).
`ver i` is the transport outcome of poll `i`; `fuel` is the remaining
iteration count, `i` the current poll index. An uncaught exception from
`was_subtask_removed` propagates. -/
def verify_attempts (ver : Nat → VerifyResult) :
    Nat → Nat → Except String ((Bool × String) × List Action)
  | 0, _ => .ok ((false, "Subtask not removed after retries."), [])
  | fuel + 1, i =>
    match was_subtask_removed (ver i) with
    | .error exc => .error exc
    | .ok (true, _) => .ok ((true, ""), [.verPoll i])
    | .ok (false, _) =>
      match verify_attempts ver fuel (i + 1) with
      | .error exc => .error exc
      | .ok (res, acts) => .ok (res, .verPoll i :: .sleep 5 :: acts)

/-- Python `str` of the optional `status` field: `str(None) = "None"`. -/
def pyStr (v : Option Int) : String :=
  match v with
  | none => "None"
  | some n => toString n

/-- The outer update loop of `update_subtask` (source lines 239-305):
`for attempt in range(RETRIES)` POSTs the update. On `status_code == 200`
with body status 0 it runs the verification loop and returns its result
(lines 253-285); a 200 with any other body status returns
`(False, "API returned unexpected status: ...")` (lines 287-289); a
non-200 records the error text and retries (line 291); a `Timeout` retries
with the recorded error unchanged (line 299); any other `RequestException`
returns `(False, str(err))` at once (line 302); exhaustion returns
`(False, error)` with the last recorded error (line 305, initially `""`
from line 238). `upd i` is the transport outcome of attempt `i`. -/
def update_attempts (upd : Nat → UpdateResult) (ver : Nat → VerifyResult)
    (retries : Nat) :
    Nat → Nat → String → Except String ((Bool × String) × List Action)
  | 0, _, error => .ok ((false, error), [])
  | fuel + 1, i, error =>
    match upd i with
    | .response statusCode bodyStatus text =>
      if statusCode = 200 then
        if bodyStatus = some 0 then
          match verify_attempts ver retries 0 with
          | .error exc => .error exc
          | .ok (res, acts) => .ok (res, .updAttempt i :: acts)
        else
          .ok ((false, "API returned unexpected status: " ++ pyStr bodyStatus),
               [.updAttempt i])
      else
        match update_attempts upd ver retries fuel (i + 1)
            ("Error updating subtask. Status code: " ++ toString statusCode
              ++ ". Response: " ++ text) with
        | .error exc => .error exc
        | .ok (res, acts) => .ok (res, .updAttempt i :: acts)
    | .timeout =>
      match update_attempts upd ver retries fuel (i + 1) error with
      | .error exc => .error exc
      | .ok (res, acts) => .ok (res, .updAttempt i :: acts)
    | .reqException err => .ok ((false, err), [.updAttempt i])

/-- `update_subtask` (source lines 234-305): the update-then-verify state
machine for one subtask, with `RETRIES = retries` for both loops. -/
def update_subtask (upd : Nat → UpdateResult) (ver : Nat → VerifyResult)
    (retries : Nat) : Except String ((Bool × String) × List Action) :=
  update_attempts upd ver retries retries 0 ""

/-- `send_google_chat_notification` (source lines 368-391), response path
only: posts the card and logs at level `"error"` when the webhook's
status is not 200, else at `"info"`; nothing is returned to the caller.
The model returns the log level. The POST can also raise (it has no
try/except); that path is modelled by
`send_google_chat_notification_call` below. -/
def send_google_chat_notification (respStatus : Nat) : String :=
  if respStatus ≠ 200 then "error" else "info"

/-- `send_teams_notification` (source lines 394-417), response path only:
posts the card and logs at level `"error"` when the webhook's status is
not 202, else at `"info"`; nothing is returned to the caller. The model
returns the log level. The POST can also raise (it has no try/except);
that path is modelled by `send_teams_notification_call` below. -/
def send_teams_notification (respStatus : Nat) : String :=
  if respStatus ≠ 202 then "error" else "info"

/-- One observable step of `process_subtasks`: invoking the resolver on
subtask `i`, or dispatching to one of the two notification channels
(recording the log level that dispatch produced). -/
inductive OrchAction where
  | resolve (i : Nat)
  | teams (logLevel : String)
  | googleChat (logLevel : String)
deriving DecidableEq

/-- The per-subtask HTTP environment: outcomes of the update POST attempts
and of the verification polls for that subtask. -/
structure SubtaskEnv where
  upd : Nat → UpdateResult
  ver : Nat → VerifyResult

/-- The loop body of `process_subtasks` (source lines 310-328), iterating
subtasks `i, i+1, ...` with `fuel` subtasks remaining. On the first
failed `update_subtask` it dispatches to Teams then Google Chat (lines
324-325; `tStat`, `gStat` are the webhook response statuses) and returns
`False`; on success it moves to the next subtask; when all are done it
returns `True`. -/
def process_from (envs : Nat → SubtaskEnv) (retries tStat gStat : Nat) :
    Nat → Nat → Except String (Bool × List OrchAction)
  | 0, _ => .ok (true, [])
  | fuel + 1, i =>
    match update_subtask (envs i).upd (envs i).ver retries with
    | .error exc => .error exc
    | .ok ((true, _), _) =>
      match process_from envs retries tStat gStat fuel (i + 1) with
      | .error exc => .error exc
      | .ok (b, tr) => .ok (b, .resolve i :: tr)
    | .ok ((false, _), _) =>
      .ok (false, [.resolve i,
                   .teams (send_teams_notification tStat),
                   .googleChat (send_google_chat_notification gStat)])

/-- `process_subtasks` (source lines 308-328) over a ticket with `n`
subtasks whose HTTP environments are `envs 0, ..., envs (n-1)`. -/
def process_subtasks (envs : Nat → SubtaskEnv) (retries tStat gStat n : Nat) :
    Except String (Bool × List OrchAction) :=
  process_from envs retries tStat gStat n 0

/-- Outcome of parsing the inbound payload in `main` (source line 433):
`json.loads(event["data"].replace("'", '"'))` either yields the ticket data
(of which the model keeps the `ticketId`) or raises
`KeyError`/`JSONDecodeError` with message `e`. -/
inductive ParseResult where
  | parsed (ticketId : String)
  | malformed (e : String)
deriving DecidableEq

/-- The dict `main` returns: an HTTP status code and the JSON body's
key-value pairs in order. -/
structure HttpResponse where
  statusCode : Nat
  body : List (String × String)
deriving DecidableEq

/-- One observable step of `main`: a secret-retrieval attempt against the
credential store, or an orchestrator step. -/
inductive MainAction where
  | getSecret
  | orch (a : OrchAction)
deriving DecidableEq

/-- `main` (source lines 420-488). A malformed payload returns 400 with
body `{"message": "Invalid input data", "error": str(e)}` before any
secret fetch or HTTP call (lines 434-439). Then the channel secret and the
token secret are fetched in that order (lines 454-455); `get_secret` turns
a `ClientError` into `RuntimeError("Failed to retrieve secrets")` (line
165), which `main` answers with 401 and body `{"message": str(e)}` (line
466), before any subtask processing. Otherwise `process_subtasks` runs and
`main` returns 200 (all resolved) or 500 (some subtask failed) with a
message and `"dsr_id": ticketId` (lines 468-488). `channelOk` / `tokenOk`
say whether the two secret fetches succeed. -/
def main (parse : ParseResult) (channelOk tokenOk : Bool)
    (envs : Nat → SubtaskEnv) (retries tStat gStat n : Nat) :
    Except String (HttpResponse × List MainAction) :=
  match parse with
  | .malformed e =>
    .ok (⟨400, [("message", "Invalid input data"), ("error", e)]⟩, [])
  | .parsed ticketId =>
    if channelOk = false then
      .ok (⟨401, [("message", "Failed to retrieve secrets")]⟩, [.getSecret])
    else if tokenOk = false then
      .ok (⟨401, [("message", "Failed to retrieve secrets")]⟩,
           [.getSecret, .getSecret])
    else
      match process_subtasks envs retries tStat gStat n with
      | .error exc => .error exc
      | .ok (true, tr) =>
        .ok (⟨200, [("message",
                      "All subtasks processed with notifications sent for failures."),
                    ("dsr_id", ticketId)]⟩,
             [.getSecret, .getSecret] ++ tr.map .orch)
      | .ok (false, tr) =>
        .ok (⟨500, [("message", "Failed to process the DSR. Notifications sent."),
                    ("dsr_id", ticketId)]⟩,
             [.getSecret, .getSecret] ++ tr.map .orch)

/-- The failure/success detail of a resolver outcome, `none` when an
exception escaped. -/
def resultDetail : Except String ((Bool × String) × List Action) → Option String
  | .ok ((_, d), _) => some d
  | .error _ => none

/-- Number of verification polls an `update_subtask` run performed,
`none` when an exception escaped. -/
def pollCount : Except String ((Bool × String) × List Action) → Option Nat
  | .ok (_, acts) =>
    some (acts.countP fun a => match a with | .verPoll _ => true | _ => false)
  | .error _ => none

/-- Number of update POST attempts an `update_subtask` run performed,
`none` when an exception escaped. -/
def updCount : Except String ((Bool × String) × List Action) → Option Nat
  | .ok (_, l) =>
    some (l.countP fun a => match a with | .updAttempt _ => true | _ => false)
  | .error _ => none

/-- Whether some value in the response body equals `s`, `none` when an
exception escaped `main`. -/
def bodyMentions (r : Except String (HttpResponse × List MainAction))
    (s : String) : Option Bool :=
  match r with
  | .ok (resp, _) => some (resp.body.any fun p => p.2 == s)
  | .error _ => none

/-! ### Trace bookkeeping lemmas -/

theorem pollTrace_shift (f i : Nat) :
    (List.range (f + 1)).flatMap
        (fun k => [Action.verPoll (i + k), Action.sleep 5]) =
      Action.verPoll i :: Action.sleep 5 ::
        (List.range f).flatMap
          (fun k => [Action.verPoll (i + 1 + k), Action.sleep 5]) := by
  rw [List.range_succ_eq_map, List.flatMap_cons, List.flatMap_map]
  have h : (fun a => [Action.verPoll (i + Nat.succ a), Action.sleep 5]) =
      fun k => [Action.verPoll (i + 1 + k), Action.sleep 5] := by
    funext k
    rw [show i + Nat.succ k = i + 1 + k by omega]
  rw [h, Nat.add_zero]
  rfl

theorem updTrace_shift (f i : Nat) :
    (List.range (f + 1)).map (fun k => Action.updAttempt (i + k)) =
      Action.updAttempt i ::
        (List.range f).map (fun k => Action.updAttempt (i + 1 + k)) := by
  rw [List.range_succ_eq_map, List.map_cons, List.map_map]
  have h : ((fun k => Action.updAttempt (i + k)) ∘ Nat.succ) =
      fun k => Action.updAttempt (i + 1 + k) := by
    funext k
    show Action.updAttempt (i + Nat.succ k) = _
    rw [show i + Nat.succ k = i + 1 + k by omega]
  rw [h, Nat.add_zero]

theorem resolveTrace_shift (f i : Nat) :
    (List.range (f + 1)).map (fun k => OrchAction.resolve (i + k)) =
      OrchAction.resolve i ::
        (List.range f).map (fun k => OrchAction.resolve (i + 1 + k)) := by
  rw [List.range_succ_eq_map, List.map_cons, List.map_map]
  have h : ((fun k => OrchAction.resolve (i + k)) ∘ Nat.succ) =
      fun k => OrchAction.resolve (i + 1 + k) := by
    funext k
    show OrchAction.resolve (i + Nat.succ k) = _
    rw [show i + Nat.succ k = i + 1 + k by omega]
  rw [h, Nat.add_zero]

/-- When every poll is classified as a miss, the verification loop runs its
full budget, sleeping 5 after each poll, and reports the fixed exhaustion
detail. -/
theorem verify_attempts_all_miss (ver : Nat → VerifyResult)
    (h : ∀ j, ∃ d, was_subtask_removed (ver j) = .ok (false, d)) :
    ∀ fuel i, verify_attempts ver fuel i =
      .ok ((false, "Subtask not removed after retries."),
        (List.range fuel).flatMap
          (fun k => [Action.verPoll (i + k), Action.sleep 5])) := by
  intro fuel
  induction fuel with
  | zero => intro i; rfl
  | succ f ih =>
    intro i
    obtain ⟨d, hd⟩ := h i
    rw [pollTrace_shift]
    simp only [verify_attempts, hd, ih (i + 1)]

/-! ### Claim C1 -/

/-- C1, counterexample to the claim as stated. The claim calls an update
request "accepted" on any 2xx response with body status 0, but the code
(line 253) accepts only `status_code == 200` exactly. With every update
attempt answered 201 with body status 0 (so "accepted" in the claim's
sense, and vacuously every verification poll reports a count other than 1,
since no poll happens), `resolve` does not return the detail
"Subtask not removed after retries." after `RETRIES = 3` verification
polls: it performs 0 verification polls and fails with the HTTP-retry
detail instead. -/
theorem C1_counterexample :
    resultDetail (update_subtask (fun _ => .response 201 (some 0) "")
        (fun _ => .response 200 "r" (.rows 2)) 3) =
      some "Error updating subtask. Status code: 201. Response: " ∧
    pollCount (update_subtask (fun _ => .response 201 (some 0) "")
        (fun _ => .response 200 "r" (.rows 2)) 3) = some 0 := by
  constructor <;> rfl

/-- C1, amended ("2xx" tightened to "exactly 200", which is what line 253
checks): if the first update attempt is answered 200 with body status 0
and every verification poll reports a `total_subtasks` count other than 1,
then `update_subtask` returns failure with detail
"Subtask not removed after retries." after exactly `retries` verification
polls, each followed by a `sleep 5`, and performs no further update
attempt (the trace holds exactly one `updAttempt`). -/
theorem C1_verification_exhausted (upd : Nat → UpdateResult)
    (ver : Nat → VerifyResult) (retries : Nat) (t : String)
    (row : Nat → String) (c : Nat → Int)
    (hr : 0 < retries)
    (hu : upd 0 = .response 200 (some 0) t)
    (hv : ∀ j, ver j = .response 200 (row j) (.rows (c j)))
    (hc : ∀ j, c j ≠ 1) :
    update_subtask upd ver retries =
      .ok ((false, "Subtask not removed after retries."),
        Action.updAttempt 0 ::
          (List.range retries).flatMap
            (fun k => [Action.verPoll k, Action.sleep 5])) := by
  have hmiss : ∀ j, ∃ d, was_subtask_removed (ver j) = .ok (false, d) := by
    intro j
    refine ⟨row j, ?_⟩
    rw [hv j]
    simp [was_subtask_removed, hc j]
  obtain ⟨r, rfl⟩ : ∃ r, retries = r + 1 := ⟨retries - 1, by omega⟩
  have hver := verify_attempts_all_miss ver hmiss (r + 1) 0
  have hz : (fun k => [Action.verPoll (0 + k), Action.sleep 5]) =
      fun k => [Action.verPoll k, Action.sleep 5] := by
    funext k
    rw [Nat.zero_add]
  rw [hz] at hver
  simp [update_subtask, update_attempts, hu, hver]

/-- C1 witness: with `RETRIES = 3`, an accepted update whose three
verification polls all report `total_subtasks = 2`, the resolver fails
with the exhaustion detail after polls 0, 1, 2, each followed by
`sleep 5`, and a single update attempt. -/
theorem C1_verification_exhausted_witness :
    update_subtask (fun _ => .response 200 (some 0) "")
        (fun _ => .response 200 "r" (.rows 2)) 3 =
      .ok ((false, "Subtask not removed after retries."),
        [Action.updAttempt 0, Action.verPoll 0, Action.sleep 5,
         Action.verPoll 1, Action.sleep 5, Action.verPoll 2,
         Action.sleep 5]) :=
  (C1_verification_exhausted (fun _ => .response 200 (some 0) "")
      (fun _ => .response 200 "r" (.rows 2)) 3 "" (fun _ => "r")
      (fun _ => 2) (by decide) rfl (fun _ => rfl)
      (fun _ => (by decide : (2 : Int) ≠ 1))).trans
    (by rfl)

/-! ### Claim C2 -/

/-- C2, counterexample to the claim as stated. The claim says a non-timeout
transport exception on a verification poll is fatal for the subtask and
makes `resolve` return failure immediately. In the code,
`was_subtask_removed` catches `RequestException` itself and returns
`(False, str(err))` (lines 224-231), and the verification loop (lines
261-277) inspects only the boolean, so the exception is an ordinary miss:
here poll 0 raises a non-timeout `RequestException`, the loop sleeps and
polls again, and `resolve` returns success instead of failing
immediately. -/
theorem C2_counterexample :
    update_subtask (fun _ => .response 200 (some 0) "")
        (fun j => if j = 0 then .reqException "connection error"
                  else .response 200 "" (.rows 1)) 3 =
      .ok ((true, ""),
        [Action.updAttempt 0, Action.verPoll 0, Action.sleep 5,
         Action.verPoll 1]) := by
  rfl

/-- C2, amended: during the verification loop a transport timeout and a
non-timeout transport exception are treated alike, as verification misses.
`was_subtask_removed` classifies both as `(false, detail)` without
raising, and the loop then behaves exactly as on any miss: it records the
poll, sleeps 5, and continues with the remaining budget; nothing is fatal
and nothing returns early. -/
theorem C2_verification_exception_is_miss :
    (∀ e, was_subtask_removed (.reqException e) = .ok (false, e)) ∧
    was_subtask_removed .timeout = .ok (false, "Processing timeout") ∧
    (∀ (ver : Nat → VerifyResult) (fuel i : Nat),
      (ver i = .timeout ∨ ∃ e, ver i = .reqException e) →
      verify_attempts ver (fuel + 1) i =
        Except.map
          (fun p => (p.1, Action.verPoll i :: Action.sleep 5 :: p.2))
          (verify_attempts ver fuel (i + 1))) := by
  refine ⟨fun e => rfl, rfl, ?_⟩
  intro ver fuel i h
  have hm : ∃ d, was_subtask_removed (ver i) = .ok (false, d) := by
    rcases h with h | ⟨e, h⟩
    · exact ⟨"Processing timeout", by rw [h]; rfl⟩
    · exact ⟨e, by rw [h]; rfl⟩
  obtain ⟨d, hd⟩ := hm
  simp only [verify_attempts, hd]
  cases hv2 : verify_attempts ver fuel (i + 1) with
  | error e => rfl
  | ok p =>
    obtain ⟨res, acts⟩ := p
    rfl

/-- C2 witness: a non-timeout transport exception on poll 0 is classified
`(false, "boom")`, and the loop carries on: with budget 3 starting at poll
0, the run is poll 0 (miss), sleep, poll 1 (success). -/
theorem C2_verification_exception_is_miss_witness :
    was_subtask_removed (.reqException "boom") = .ok (false, "boom") ∧
    verify_attempts
        (fun j => if j = 0 then .reqException "boom"
                  else .response 200 "" (.rows 1)) 3 0 =
      .ok ((true, ""), [Action.verPoll 0, Action.sleep 5, Action.verPoll 1]) :=
  ⟨C2_verification_exception_is_miss.1 "boom",
   (C2_verification_exception_is_miss.2.2
        (fun j => if j = 0 then .reqException "boom"
                  else .response 200 "" (.rows 1)) 2 0
        (Or.inr ⟨"boom", rfl⟩)).trans (by rfl)⟩

/-! ### Claim C3 -/

theorem updTrace_zero (f : Nat) :
    (List.range f).map (fun k => Action.updAttempt (0 + k)) =
      (List.range f).map Action.updAttempt := by
  have h : (fun k => Action.updAttempt (0 + k)) = Action.updAttempt := by
    funext k
    rw [Nat.zero_add]
  rw [h]

/-- A non-timeout request exception on attempt `i` aborts the update loop
at once with the exception text as detail (source line 302). -/
theorem update_attempts_exception (upd : Nat → UpdateResult)
    (ver : Nat → VerifyResult) (retries : Nat) (e : String)
    (fuel i : Nat) (err : String) (h : upd i = .reqException e) :
    update_attempts upd ver retries (fuel + 1) i err =
      .ok ((false, e), [Action.updAttempt i]) := by
  simp [update_attempts, h]

/-- When every update attempt times out, the loop runs its full budget and
returns the error accumulator unchanged (source lines 298-299, 305). -/
theorem update_attempts_all_timeout (upd : Nat → UpdateResult)
    (ver : Nat → VerifyResult) (retries : Nat)
    (h : ∀ i, upd i = .timeout) :
    ∀ fuel i err, update_attempts upd ver retries fuel i err =
      .ok ((false, err),
        (List.range fuel).map (fun k => Action.updAttempt (i + k))) := by
  intro fuel
  induction fuel with
  | zero =>
    intro i err
    rfl
  | succ f ih =>
    intro i err
    rw [updTrace_shift]
    simp only [update_attempts, h i, ih (i + 1) err]

/-- One step of the update loop on a non-200 response: record the error
text and continue with the remaining budget (source lines 290-297). -/
theorem update_attempts_http_step (upd : Nat → UpdateResult)
    (ver : Nat → VerifyResult) (retries fuel i : Nat) (err : String)
    (code0 : Nat) (bs0 : Option Int) (text0 : String)
    (hu : upd i = .response code0 bs0 text0) (hc : code0 ≠ 200) :
    update_attempts upd ver retries (fuel + 1) i err =
      match update_attempts upd ver retries fuel (i + 1)
          ("Error updating subtask. Status code: " ++ toString code0
            ++ ". Response: " ++ text0) with
      | .error exc => .error exc
      | .ok (res, acts) => .ok (res, Action.updAttempt i :: acts) := by
  simp only [update_attempts, hu]
  rw [if_neg hc]

/-- When every update attempt draws a non-200 HTTP response, the loop runs
its full budget and fails with the last attempt's error text (source
lines 290-297, 305). -/
theorem update_attempts_all_http (upd : Nat → UpdateResult)
    (ver : Nat → VerifyResult) (retries : Nat)
    (code : Nat → Nat) (bs : Nat → Option Int) (text : Nat → String)
    (hc : ∀ i, code i ≠ 200)
    (h : ∀ i, upd i = .response (code i) (bs i) (text i)) :
    ∀ fuel i err, update_attempts upd ver retries (fuel + 1) i err =
      .ok ((false, "Error updating subtask. Status code: "
            ++ toString (code (i + fuel)) ++ ". Response: " ++ text (i + fuel)),
        (List.range (fuel + 1)).map (fun k => Action.updAttempt (i + k))) := by
  intro fuel
  induction fuel with
  | zero =>
    intro i err
    rw [updTrace_shift]
    simp [update_attempts, h i, hc i]
  | succ f ih =>
    intro i err
    rw [updTrace_shift, show i + (f + 1) = i + 1 + f by omega]
    rw [update_attempts_http_step upd ver retries (f + 1) i err (code i)
      (bs i) (text i) (h i) (hc i)]
    rw [ih (i + 1)]

/-- C3, confirmed: in the update loop, a timeout is retried and a non-200
HTTP status is retried, in both cases for at most `retries` attempts
before `update_subtask` returns failure; a non-timeout request-level
exception on the first attempt makes it return failure with the exception
text as detail after exactly that one attempt. -/
theorem C3_update_retry_policy (upd : Nat → UpdateResult)
    (ver : Nat → VerifyResult) (retries : Nat) (hr : 0 < retries) :
    (∀ e, upd 0 = .reqException e →
      update_subtask upd ver retries =
        .ok ((false, e), [Action.updAttempt 0])) ∧
    ((∀ i, upd i = .timeout) →
      update_subtask upd ver retries =
        .ok ((false, ""), (List.range retries).map Action.updAttempt)) ∧
    (∀ (code : Nat → Nat) (bs : Nat → Option Int) (text : Nat → String),
      (∀ i, code i ≠ 200) →
      (∀ i, upd i = .response (code i) (bs i) (text i)) →
      update_subtask upd ver retries =
        .ok ((false, "Error updating subtask. Status code: "
              ++ toString (code (retries - 1)) ++ ". Response: "
              ++ text (retries - 1)),
          (List.range retries).map Action.updAttempt)) := by
  obtain ⟨r, rfl⟩ : ∃ r, retries = r + 1 := ⟨retries - 1, by omega⟩
  refine ⟨?_, ?_, ?_⟩
  · intro e he
    exact update_attempts_exception upd ver (r + 1) e r 0 "" he
  · intro h
    have hall := update_attempts_all_timeout upd ver (r + 1) h (r + 1) 0 ""
    rw [updTrace_zero] at hall
    exact hall
  · intro code bs text hc h
    have hall := update_attempts_all_http upd ver (r + 1) code bs text hc h r 0 ""
    rw [updTrace_zero, Nat.zero_add] at hall
    rw [show r + 1 - 1 = r by omega]
    exact hall

/-- C3 witness with `RETRIES = 3`: a first-attempt `RequestException`
aborts after one attempt with its text as detail; three timeouts exhaust
the loop with empty detail; three 503 responses exhaust the loop with the
last HTTP error text as detail. -/
theorem C3_update_retry_policy_witness :
    update_subtask (fun _ => .reqException "down") (fun _ => .timeout) 3 =
      .ok ((false, "down"), [Action.updAttempt 0]) ∧
    update_subtask (fun _ => .timeout) (fun _ => .timeout) 3 =
      .ok ((false, ""),
        [Action.updAttempt 0, Action.updAttempt 1, Action.updAttempt 2]) ∧
    update_subtask (fun _ => .response 503 none "svc") (fun _ => .timeout) 3 =
      .ok ((false, "Error updating subtask. Status code: 503. Response: svc"),
        [Action.updAttempt 0, Action.updAttempt 1, Action.updAttempt 2]) :=
  ⟨(C3_update_retry_policy (fun _ => .reqException "down")
      (fun _ => .timeout) 3 (by decide)).1 "down" rfl,
   ((C3_update_retry_policy (fun _ => .timeout)
      (fun _ => .timeout) 3 (by decide)).2.1 (fun _ => rfl)).trans (by rfl),
   ((C3_update_retry_policy (fun _ => .response 503 none "svc")
      (fun _ => .timeout) 3 (by decide)).2.2 (fun _ => 503) (fun _ => none)
      (fun _ => "svc") (fun _ => (by decide : (503 : Nat) ≠ 200))
      (fun _ => rfl)).trans (by rfl)⟩

/-! ### Claim C4 -/

/-- C4, counterexample to the claim as stated. The claim covers any 2xx
update response with a non-zero body status, but the code inspects the
body only when `status_code == 200` (line 253): answered 201 with body
status 7 on every attempt, `resolve` does not fail immediately with a
detail containing "7" — it retries all three attempts and fails with the
HTTP error text, which does not mention 7. -/
theorem C4_counterexample :
    update_subtask (fun _ => .response 201 (some 7) "")
        (fun _ => .timeout) 3 =
      .ok ((false, "Error updating subtask. Status code: 201. Response: "),
        [Action.updAttempt 0, Action.updAttempt 1, Action.updAttempt 2]) ∧
    updCount (update_subtask (fun _ => .response 201 (some 7) "")
        (fun _ => .timeout) 3) = some 3 := by
  constructor <;> rfl

/-- C4, amended ("2xx" tightened to "exactly 200"): when the first update
attempt is answered 200 with a body status other than `0`,
`update_subtask` fails immediately with detail
`"API returned unexpected status: "` followed by that value verbatim
(Python `str`, so `"None"` for a missing field), after exactly one update
attempt and zero verification polls. -/
theorem C4_rejected_status (upd : Nat → UpdateResult)
    (ver : Nat → VerifyResult) (retries : Nat) (v : Option Int) (t : String)
    (hr : 0 < retries)
    (hu : upd 0 = .response 200 v t)
    (hv : v ≠ some 0) :
    update_subtask upd ver retries =
      .ok ((false, "API returned unexpected status: " ++ pyStr v),
        [Action.updAttempt 0]) := by
  obtain ⟨r, rfl⟩ : ∃ r, retries = r + 1 := ⟨retries - 1, by omega⟩
  show update_attempts upd ver (r + 1) (r + 1) 0 "" = _
  simp only [update_attempts, hu]
  rw [if_pos trivial, if_neg hv]

/-- C4 witness: a 200 update response with body status 7 fails at once,
the detail carries "7", and the trace is a single update attempt with no
verification poll. -/
theorem C4_rejected_status_witness :
    update_subtask (fun _ => .response 200 (some 7) "")
        (fun _ => .timeout) 3 =
      .ok ((false, "API returned unexpected status: 7"),
        [Action.updAttempt 0]) :=
  (C4_rejected_status (fun _ => .response 200 (some 7) "")
      (fun _ => .timeout) 3 (some 7) "" (by decide) rfl
      (by decide)).trans (by rfl)

/-! ### Claim C5 -/

/-- C5, counterexample to the claim as stated. The claim covers any 2xx
update response with body status 0, but the code treats everything except
exactly 200 as an HTTP error to retry (lines 253, 290-297): answered 299
with body status 0 on every attempt and a platform that confirms removal
on the first poll, `resolve` never polls at all and fails after three
update attempts instead of succeeding after one. -/
theorem C5_counterexample :
    update_subtask (fun _ => .response 299 (some 0) "")
        (fun _ => .response 200 "t" (.rows 1)) 3 =
      .ok ((false, "Error updating subtask. Status code: 299. Response: "),
        [Action.updAttempt 0, Action.updAttempt 1, Action.updAttempt 2]) := by
  rfl

/-- C5, amended ("2xx" tightened to "exactly 200"): when the first update
attempt is answered 200 with body status 0 and the first verification
poll reports `total_subtasks = 1`, `update_subtask` returns success with
empty detail after exactly one update attempt and one verification poll,
with no sleep in the trace. -/
theorem C5_first_poll_success (upd : Nat → UpdateResult)
    (ver : Nat → VerifyResult) (retries : Nat) (t t2 : String)
    (hr : 0 < retries)
    (hu : upd 0 = .response 200 (some 0) t)
    (hv : ver 0 = .response 200 t2 (.rows 1)) :
    update_subtask upd ver retries =
      .ok ((true, ""), [Action.updAttempt 0, Action.verPoll 0]) := by
  obtain ⟨r, rfl⟩ : ∃ r, retries = r + 1 := ⟨retries - 1, by omega⟩
  have hverify : verify_attempts ver (r + 1) 0 =
      .ok ((true, ""), [Action.verPoll 0]) := by
    simp [verify_attempts, hv, was_subtask_removed]
  show update_attempts upd ver (r + 1) (r + 1) 0 "" = _
  simp only [update_attempts, hu, hverify]
  rw [if_pos trivial, if_pos trivial]

/-- C5 witness: `RETRIES = 3`, first update answered 200/status 0, first
poll reports count 1: success, one attempt, one poll, no sleep. -/
theorem C5_first_poll_success_witness :
    update_subtask (fun _ => .response 200 (some 0) "")
        (fun _ => .response 200 "t" (.rows 1)) 3 =
      .ok ((true, ""), [Action.updAttempt 0, Action.verPoll 0]) :=
  C5_first_poll_success (fun _ => .response 200 (some 0) "")
    (fun _ => .response 200 "t" (.rows 1)) 3 "" "t" (by decide) rfl rfl

/-! ### Claim C6 -/

/-- C6, confirmed: one verification query returns `(true, "")` if and only
if the HTTP status is 200 and the first data row's `total_subtasks`
equals 1; any other count gives `(false, response.text)`; a non-200
status gives `(false, response.text)`; a timeout gives
`(false, "Processing timeout")`; any other transport exception gives
`(false, str(err))`. The function consumes exactly one transport outcome,
so no retry happens at this layer. -/
theorem C6_verification_client_contract :
    (∀ t, was_subtask_removed (.response 200 t (.rows 1)) = .ok (true, "")) ∧
    (∀ t (n : Int), n ≠ 1 →
      was_subtask_removed (.response 200 t (.rows n)) = .ok (false, t)) ∧
    (∀ (c : Nat) t b, c ≠ 200 →
      was_subtask_removed (.response c t b) = .ok (false, t)) ∧
    was_subtask_removed .timeout = .ok (false, "Processing timeout") ∧
    (∀ e, was_subtask_removed (.reqException e) = .ok (false, e)) ∧
    (∀ r, was_subtask_removed r = .ok (true, "") ↔
      ∃ t, r = .response 200 t (.rows 1)) := by
  refine ⟨fun t => rfl, ?_, ?_, rfl, fun e => rfl, ?_⟩
  · intro t n hn
    simp [was_subtask_removed, hn]
  · intro c t b hc
    simp [was_subtask_removed, hc]
  · intro r
    constructor
    · intro h
      cases r with
      | timeout => simp [was_subtask_removed] at h
      | reqException e => simp [was_subtask_removed] at h
      | response c t b =>
        by_cases h200 : c = 200
        · subst h200
          cases b with
          | malformed exc => simp [was_subtask_removed] at h
          | rows n =>
            by_cases h1 : n = 1
            · subst h1
              exact ⟨t, rfl⟩
            · simp [was_subtask_removed, h1] at h
        · simp [was_subtask_removed, h200] at h
    · rintro ⟨t, rfl⟩
      rfl

/-- C6 witness: the contract evaluated at one concrete input per
outcome class. -/
theorem C6_verification_client_contract_witness :
    was_subtask_removed (.response 200 "raw" (.rows 1)) = .ok (true, "") ∧
    was_subtask_removed (.response 200 "raw" (.rows 3)) = .ok (false, "raw") ∧
    was_subtask_removed (.response 404 "body" (.rows 1)) = .ok (false, "body") ∧
    (was_subtask_removed (.response 200 "raw" (.rows 1)) = .ok (true, "") ↔
      ∃ t, VerifyResult.response 200 "raw" (.rows 1) =
        .response 200 t (.rows 1)) :=
  ⟨C6_verification_client_contract.1 "raw",
   C6_verification_client_contract.2.1 "raw" 3 (by decide),
   C6_verification_client_contract.2.2.1 404 "body" (.rows 1) (by decide),
   C6_verification_client_contract.2.2.2.2.2 (.response 200 "raw" (.rows 1))⟩

/-! ### Claim C7 -/

theorem resolveTrace_zero (f : Nat) :
    (List.range f).map (fun k => OrchAction.resolve (0 + k)) =
      (List.range f).map OrchAction.resolve := by
  have h : (fun k => OrchAction.resolve (0 + k)) = OrchAction.resolve := by
    funext k
    rw [Nat.zero_add]
  rw [h]

/-- When every remaining subtask resolves successfully, the orchestrator
loop visits them all in order and returns `true` with no notification
dispatch. -/
theorem process_from_all_ok (envs : Nat → SubtaskEnv)
    (retries tStat gStat : Nat) :
    ∀ fuel i,
      (∀ j, i ≤ j → j < i + fuel → ∃ d tr,
        update_subtask (envs j).upd (envs j).ver retries =
          .ok ((true, d), tr)) →
      process_from envs retries tStat gStat fuel i =
        .ok (true, (List.range fuel).map (fun k => OrchAction.resolve (i + k))) := by
  intro fuel
  induction fuel with
  | zero =>
    intro i h
    rfl
  | succ f ih =>
    intro i h
    obtain ⟨d, tr, htr⟩ := h i (Nat.le_refl i) (by omega)
    rw [resolveTrace_shift]
    simp only [process_from, htr,
      ih (i + 1) (fun j hj1 hj2 => h j (by omega) (by omega))]

/-- When subtasks `i, ..., k-1` resolve successfully and subtask `k`
fails, the orchestrator loop stops at `k`, dispatches Teams then Google
Chat once each, and returns `false` without visiting any later
subtask. -/
theorem process_from_first_fail (envs : Nat → SubtaskEnv)
    (retries tStat gStat : Nat) :
    ∀ fuel i k, i ≤ k → k < i + fuel →
      (∀ j, i ≤ j → j < k → ∃ d tr,
        update_subtask (envs j).upd (envs j).ver retries =
          .ok ((true, d), tr)) →
      (∃ r tr, update_subtask (envs k).upd (envs k).ver retries =
        .ok ((false, r), tr)) →
      process_from envs retries tStat gStat fuel i =
        .ok (false,
          (List.range (k - i)).map (fun m => OrchAction.resolve (i + m)) ++
            [OrchAction.resolve k,
             OrchAction.teams (send_teams_notification tStat),
             OrchAction.googleChat (send_google_chat_notification gStat)]) := by
  intro fuel
  induction fuel with
  | zero =>
    intro i k h1 h2 hok hfail
    exact absurd h2 (by omega)
  | succ f ih =>
    intro i k h1 h2 hok hfail
    by_cases hik : i = k
    · subst hik
      obtain ⟨r, tr, htr⟩ := hfail
      rw [show i - i = 0 by omega]
      simp only [process_from, htr]
      rfl
    · have hik2 : i < k := by omega
      obtain ⟨d, tr, htr⟩ := hok i (Nat.le_refl i) hik2
      rw [show k - i = (k - (i + 1)) + 1 by omega, resolveTrace_shift]
      simp only [process_from, htr,
        ih (i + 1) k (by omega) (by omega)
          (fun j hj1 hj2 => hok j (by omega) hj2) hfail]
      rfl

/-- C7, confirmed: the orchestrator visits subtasks in sequence order; at
the first failing one it dispatches exactly one notification per channel
(Teams then Google Chat) and returns overall failure without invoking the
resolver on any later subtask; when every subtask resolves it returns
overall success having visited them all, with no notification in the
trace. -/
theorem C7_orchestrator_first_failure (envs : Nat → SubtaskEnv)
    (retries tStat gStat n : Nat) :
    (∀ k, k < n →
      (∀ j, j < k → ∃ d tr,
        update_subtask (envs j).upd (envs j).ver retries =
          .ok ((true, d), tr)) →
      (∃ r tr, update_subtask (envs k).upd (envs k).ver retries =
        .ok ((false, r), tr)) →
      process_subtasks envs retries tStat gStat n =
        .ok (false,
          (List.range k).map OrchAction.resolve ++
            [OrchAction.resolve k,
             OrchAction.teams (send_teams_notification tStat),
             OrchAction.googleChat (send_google_chat_notification gStat)])) ∧
    ((∀ j, j < n → ∃ d tr,
        update_subtask (envs j).upd (envs j).ver retries =
          .ok ((true, d), tr)) →
      process_subtasks envs retries tStat gStat n =
        .ok (true, (List.range n).map OrchAction.resolve)) := by
  constructor
  · intro k hk hok hfail
    have h := process_from_first_fail envs retries tStat gStat n 0 k
      (by omega) (by omega) (fun j hj1 hj2 => hok j hj2) hfail
    rw [resolveTrace_zero] at h
    exact h
  · intro hok
    have h := process_from_all_ok envs retries tStat gStat n 0
      (fun j hj1 hj2 => hok j (by omega))
    rw [resolveTrace_zero] at h
    exact h

/-- C7 witness: three subtasks, the second fails (first-attempt transport
exception), webhooks answer 202/200. Subtask 0 is resolved, subtask 1 is
invoked and fails, subtask 2 is never invoked, each channel is dispatched
once, and the overall result is failure. -/
theorem C7_orchestrator_first_failure_witness :
    process_subtasks
        (fun j => if j = 1 then ⟨fun _ => .reqException "X", fun _ => .timeout⟩
                  else ⟨fun _ => .response 200 (some 0) "",
                        fun _ => .response 200 "t" (.rows 1)⟩)
        3 202 200 3 =
      .ok (false,
        [OrchAction.resolve 0, OrchAction.resolve 1,
         OrchAction.teams "info", OrchAction.googleChat "info"]) := by
  refine ((C7_orchestrator_first_failure
      (fun j => if j = 1 then ⟨fun _ => .reqException "X", fun _ => .timeout⟩
                else ⟨fun _ => .response 200 (some 0) "",
                      fun _ => .response 200 "t" (.rows 1)⟩)
      3 202 200 3).1 1 (by omega) ?_ ?_).trans (by rfl)
  · intro j hj
    interval_cases j
    exact ⟨"", [Action.updAttempt 0, Action.verPoll 0], rfl⟩
  · exact ⟨"X", [Action.updAttempt 0], rfl⟩

/-! ### Claim C8 -/

/-- Rewrites the log levels recorded in notification dispatches as if the
webhooks had answered `t` and `g`; every other orchestrator action is
untouched. -/
def relabel (t g : Nat) : OrchAction → OrchAction
  | .teams _ => .teams (send_teams_notification t)
  | .googleChat _ => .googleChat (send_google_chat_notification g)
  | .resolve i => .resolve i

/-- Dispatch at subtask `i`: predicate for a Teams dispatch action. -/
def isTeamsDispatch : OrchAction → Bool
  | .teams _ => true
  | _ => false

/-- Predicate for a Google Chat dispatch action. -/
def isChatDispatch : OrchAction → Bool
  | .googleChat _ => true
  | _ => false

/-- Changing the webhook response statuses changes nothing in the
orchestrator run except the log level recorded at the dispatches. -/
theorem process_from_relabel (envs : Nat → SubtaskEnv)
    (retries t g t2 g2 : Nat) :
    ∀ fuel i, process_from envs retries t g fuel i =
      Except.map (fun p => (p.1, p.2.map (relabel t g)))
        (process_from envs retries t2 g2 fuel i) := by
  intro fuel
  induction fuel with
  | zero =>
    intro i
    rfl
  | succ f ih =>
    intro i
    simp only [process_from]
    cases update_subtask (envs i).upd (envs i).ver retries with
    | error e => rfl
    | ok p =>
      obtain ⟨⟨b, d⟩, tr0⟩ := p
      cases b with
      | false => rfl
      | true =>
        rw [ih (i + 1)]
        cases process_from envs retries t2 g2 f (i + 1) with
        | error e => rfl
        | ok q =>
          obtain ⟨b2, tr2⟩ := q
          rfl

/-- Counts of notification dispatches in any completed orchestrator run:
none on success, exactly one per channel on failure. -/
theorem process_from_dispatch_count (envs : Nat → SubtaskEnv)
    (retries t g : Nat) :
    ∀ fuel i (b : Bool) (tr : List OrchAction),
      process_from envs retries t g fuel i = .ok (b, tr) →
      tr.countP isTeamsDispatch = (if b then 0 else 1) ∧
      tr.countP isChatDispatch = (if b then 0 else 1) := by
  intro fuel
  induction fuel with
  | zero =>
    intro i b tr h
    simp only [process_from, Except.ok.injEq, Prod.mk.injEq] at h
    obtain ⟨rfl, rfl⟩ := h
    constructor <;> rfl
  | succ f ih =>
    intro i b tr h
    simp only [process_from] at h
    cases hu : update_subtask (envs i).upd (envs i).ver retries with
    | error e =>
      rw [hu] at h
      exact absurd h (by simp)
    | ok p =>
      obtain ⟨⟨b0, d⟩, tr0⟩ := p
      rw [hu] at h
      cases b0 with
      | false =>
        simp only [Except.ok.injEq, Prod.mk.injEq] at h
        obtain ⟨rfl, rfl⟩ := h
        constructor <;> rfl
      | true =>
        cases hrec : process_from envs retries t g f (i + 1) with
        | error e =>
          rw [hrec] at h
          exact absurd h (by simp)
        | ok q =>
          obtain ⟨b2, tr2⟩ := q
          rw [hrec] at h
          simp only [Except.ok.injEq, Prod.mk.injEq] at h
          obtain ⟨rfl, rfl⟩ := h
          have hcount := ih (i + 1) b2 tr2 hrec
          refine ⟨?_, ?_⟩
          · simpa [List.countP_cons, isTeamsDispatch] using hcount.1
          · simpa [List.countP_cons, isChatDispatch] using hcount.2

/-- Outcome of a webhook POST (source lines 372-376 and 398-402): either
an HTTP response with its status code, or a raised exception. The POSTs
run with no try/except (and no timeout argument), so a raised
`requests` exception propagates out of the send function. -/
inductive NotifyResult where
  | response (statusCode : Nat)
  | raised (exc : String)
deriving DecidableEq

/-- `send_teams_notification` (source lines 394-417) including its
transport-error path: on a response, the non-202/202 status only picks
the log level (returned as `.ok`); a raised exception from
`requests.post` matches no handler in the function and propagates
(`.error`). -/
def send_teams_notification_call (r : NotifyResult) : Except String String :=
  match r with
  | .raised exc => .error exc
  | .response s => .ok (send_teams_notification s)

/-- `send_google_chat_notification` (source lines 368-391) including its
transport-error path: on a response, the non-200/200 status only picks
the log level (`.ok`); a raised exception from `requests.post`
propagates (`.error`). -/
def send_google_chat_notification_call (r : NotifyResult) :
    Except String String :=
  match r with
  | .raised exc => .error exc
  | .response s => .ok (send_google_chat_notification s)

/-- The loop body of `process_subtasks` (source lines 310-328) with the
webhook calls modelled in full: at the first failed subtask it calls
`send_teams_notification` (line 324) and then
`send_google_chat_notification` (line 325). An exception raised by the
Teams POST propagates before the Google Chat call is reached; an
exception raised by the Google Chat POST propagates before the
`return False`. `tRes`, `gRes` are the webhook outcomes. -/
def process_from_notify (envs : Nat → SubtaskEnv) (retries : Nat)
    (tRes gRes : NotifyResult) :
    Nat → Nat → Except String (Bool × List OrchAction)
  | 0, _ => .ok (true, [])
  | fuel + 1, i =>
    match update_subtask (envs i).upd (envs i).ver retries with
    | .error exc => .error exc
    | .ok ((true, _), _) =>
      match process_from_notify envs retries tRes gRes fuel (i + 1) with
      | .error exc => .error exc
      | .ok (b, tr) => .ok (b, .resolve i :: tr)
    | .ok ((false, _), _) =>
      match send_teams_notification_call tRes with
      | .error exc => .error exc
      | .ok lvlT =>
        match send_google_chat_notification_call gRes with
        | .error exc => .error exc
        | .ok lvlG =>
          .ok (false, [.resolve i, .teams lvlT, .googleChat lvlG])

/-- `process_subtasks` over `n` subtasks with the webhook transport
modelled in full (`process_from` is the same function restricted to
webhook outcomes that are responses). -/
def process_subtasks_notify (envs : Nat → SubtaskEnv) (retries : Nat)
    (tRes gRes : NotifyResult) (n : Nat) :
    Except String (Bool × List OrchAction) :=
  process_from_notify envs retries tRes gRes n 0

/-- When both webhooks answer with a response (no exception), the full
model coincides with the status-only orchestrator loop. -/
theorem process_from_notify_response (envs : Nat → SubtaskEnv)
    (retries t g : Nat) :
    ∀ fuel i,
      process_from_notify envs retries (.response t) (.response g) fuel i =
        process_from envs retries t g fuel i := by
  intro fuel
  induction fuel with
  | zero =>
    intro i
    rfl
  | succ f ih =>
    intro i
    simp only [process_from_notify, process_from,
      send_teams_notification_call, send_google_chat_notification_call,
      ih (i + 1)]

/-- Run of the full orchestrator loop up to the first failing subtask:
the result is whatever the two webhook calls make of the dispatch — a
propagated exception from either, or the failure return with both log
levels recorded. -/
theorem process_from_notify_first_fail (envs : Nat → SubtaskEnv)
    (retries : Nat) (tRes gRes : NotifyResult) :
    ∀ fuel i k, i ≤ k → k < i + fuel →
      (∀ j, i ≤ j → j < k → ∃ d tr,
        update_subtask (envs j).upd (envs j).ver retries =
          .ok ((true, d), tr)) →
      (∃ r tr, update_subtask (envs k).upd (envs k).ver retries =
        .ok ((false, r), tr)) →
      process_from_notify envs retries tRes gRes fuel i =
        match send_teams_notification_call tRes with
        | .error exc => .error exc
        | .ok lvlT =>
          match send_google_chat_notification_call gRes with
          | .error exc => .error exc
          | .ok lvlG =>
            .ok (false,
              (List.range (k - i)).map (fun m => OrchAction.resolve (i + m)) ++
                [OrchAction.resolve k, OrchAction.teams lvlT,
                 OrchAction.googleChat lvlG]) := by
  intro fuel
  induction fuel with
  | zero =>
    intro i k h1 h2 hok hfail
    exact absurd h2 (by omega)
  | succ f ih =>
    intro i k h1 h2 hok hfail
    by_cases hik : i = k
    · subst hik
      obtain ⟨r, tr, htr⟩ := hfail
      rw [show i - i = 0 by omega]
      simp only [process_from_notify, htr]
      cases send_teams_notification_call tRes with
      | error e => rfl
      | ok lvlT =>
        cases send_google_chat_notification_call gRes with
        | error e => rfl
        | ok lvlG => rfl
    · have hik2 : i < k := by omega
      obtain ⟨d, tr, htr⟩ := hok i (Nat.le_refl i) hik2
      rw [show k - i = (k - (i + 1)) + 1 by omega, resolveTrace_shift]
      simp only [process_from_notify, htr,
        ih (i + 1) k (by omega) (by omega)
          (fun j hj1 hj2 => hok j (by omega) hj2) hfail]
      cases send_teams_notification_call tRes with
      | error e => rfl
      | ok lvlT =>
        cases send_google_chat_notification_call gRes with
        | error e => rfl
        | ok lvlG => rfl

/-- C8, counterexample to the claim as stated. The claim says any failure
of a send — including a failure other than a non-success response — is
only logged, does not affect delivery to the other channel and does not
affect the orchestrator's return value. But the webhook POSTs have no
try/except: with the Teams POST raising a transport exception at the one
failing subtask, the orchestrator returns no value at all — the exception
escapes, and Google Chat is never dispatched — while the identical run
with a responding Teams webhook returns `False` with both dispatches. -/
theorem C8_counterexample :
    process_subtasks_notify
        (fun _ => ⟨fun _ => .reqException "X", fun _ => .timeout⟩) 3
        (.raised "ConnectionError") (.response 200) 1 =
      .error "ConnectionError" ∧
    process_subtasks_notify
        (fun _ => ⟨fun _ => .reqException "X", fun _ => .timeout⟩) 3
        (.response 202) (.response 200) 1 =
      .ok (false, [OrchAction.resolve 0, OrchAction.teams "info",
                   OrchAction.googleChat "info"]) :=
  ⟨rfl, rfl⟩

/-- C8, amended: a delivery failure that is a non-success *response*
(non-202 for Teams, non-200 for Google Chat) is only logged at level
`"error"`: the statuses affect nothing in the orchestrator's result
except the recorded log levels — the returned boolean is independent of
them and, on a failed run, each channel is dispatched exactly once
whatever either webhook answered (never on a successful run). A
*transport exception* during a send, however, is not merely logged: the
send functions have no exception handler, so a raised Teams send skips
the Google Chat dispatch and escapes the orchestrator, and a raised
Google Chat send (after a completed Teams send) escapes as well. -/
theorem C8_notification_error_paths :
    (∀ s, s ≠ 202 →
      send_teams_notification_call (.response s) = .ok "error") ∧
    (∀ s, s ≠ 200 →
      send_google_chat_notification_call (.response s) = .ok "error") ∧
    (∀ (envs : Nat → SubtaskEnv) (retries n t g t2 g2 : Nat),
      Except.map Prod.fst
          (process_subtasks_notify envs retries (.response t) (.response g) n) =
        Except.map Prod.fst
          (process_subtasks_notify envs retries (.response t2) (.response g2) n)) ∧
    (∀ (envs : Nat → SubtaskEnv) (retries n t g : Nat) (b : Bool)
        (tr : List OrchAction),
      process_subtasks_notify envs retries (.response t) (.response g) n =
        .ok (b, tr) →
      tr.countP isTeamsDispatch = (if b then 0 else 1) ∧
      tr.countP isChatDispatch = (if b then 0 else 1)) ∧
    (∀ (envs : Nat → SubtaskEnv) (retries n : Nat) (exc : String)
        (gRes : NotifyResult) (k : Nat),
      k < n →
      (∀ j, j < k → ∃ d tr,
        update_subtask (envs j).upd (envs j).ver retries =
          .ok ((true, d), tr)) →
      (∃ r tr, update_subtask (envs k).upd (envs k).ver retries =
        .ok ((false, r), tr)) →
      process_subtasks_notify envs retries (.raised exc) gRes n =
        .error exc) ∧
    (∀ (envs : Nat → SubtaskEnv) (retries n tStat : Nat) (exc : String)
        (k : Nat),
      k < n →
      (∀ j, j < k → ∃ d tr,
        update_subtask (envs j).upd (envs j).ver retries =
          .ok ((true, d), tr)) →
      (∃ r tr, update_subtask (envs k).upd (envs k).ver retries =
        .ok ((false, r), tr)) →
      process_subtasks_notify envs retries (.response tStat) (.raised exc) n =
        .error exc) := by
  refine ⟨?_, ?_, ?_, ?_, ?_, ?_⟩
  · intro s hs
    simp [send_teams_notification_call, send_teams_notification, hs]
  · intro s hs
    simp [send_google_chat_notification_call,
      send_google_chat_notification, hs]
  · intro envs retries n t g t2 g2
    show Except.map Prod.fst
        (process_from_notify envs retries (.response t) (.response g) n 0) =
      Except.map Prod.fst
        (process_from_notify envs retries (.response t2) (.response g2) n 0)
    rw [process_from_notify_response envs retries t g n 0,
      process_from_notify_response envs retries t2 g2 n 0,
      process_from_relabel envs retries t g t2 g2 n 0]
    cases process_from envs retries t2 g2 n 0 with
    | error e => rfl
    | ok p => rfl
  · intro envs retries n t g b tr h
    have h2 : process_from envs retries t g n 0 = .ok (b, tr) :=
      (process_from_notify_response envs retries t g n 0).symm.trans h
    exact process_from_dispatch_count envs retries t g n 0 b tr h2
  · intro envs retries n exc gRes k hk hok hfail
    exact process_from_notify_first_fail envs retries (.raised exc) gRes n 0
      k (by omega) (by omega) (fun j hj1 hj2 => hok j hj2) hfail
  · intro envs retries n tStat exc k hk hok hfail
    exact process_from_notify_first_fail envs retries (.response tStat)
      (.raised exc) n 0 k (by omega) (by omega)
      (fun j hj1 hj2 => hok j hj2) hfail

/-- C8 witness: failing webhook answers (500 for Teams, 404 for Google
Chat) are logged as errors without changing the orchestrator's boolean or
the one-dispatch-per-channel trace; a Teams POST raising at the failing
subtask makes the whole run return that exception (no Google Chat
dispatch), as does a raising Google Chat POST after a completed Teams
send. -/
theorem C8_notification_error_paths_witness :
    send_teams_notification_call (.response 500) = .ok "error" ∧
    send_google_chat_notification_call (.response 404) = .ok "error" ∧
    Except.map Prod.fst (process_subtasks_notify
        (fun _ => ⟨fun _ => .reqException "X", fun _ => .timeout⟩) 3
        (.response 500) (.response 404) 1) =
      Except.map Prod.fst (process_subtasks_notify
        (fun _ => ⟨fun _ => .reqException "X", fun _ => .timeout⟩) 3
        (.response 202) (.response 200) 1) ∧
    ([OrchAction.resolve 0, OrchAction.teams "error",
      OrchAction.googleChat "error"].countP isTeamsDispatch = 1 ∧
     [OrchAction.resolve 0, OrchAction.teams "error",
      OrchAction.googleChat "error"].countP isChatDispatch = 1) ∧
    process_subtasks_notify
        (fun _ => ⟨fun _ => .reqException "X", fun _ => .timeout⟩) 3
        (.raised "ConnectionError") (.response 200) 1 =
      .error "ConnectionError" ∧
    process_subtasks_notify
        (fun _ => ⟨fun _ => .reqException "X", fun _ => .timeout⟩) 3
        (.response 202) (.raised "SSLError") 1 =
      .error "SSLError" :=
  ⟨C8_notification_error_paths.1 500 (by decide),
   C8_notification_error_paths.2.1 404 (by decide),
   C8_notification_error_paths.2.2.1
     (fun _ => ⟨fun _ => .reqException "X", fun _ => .timeout⟩)
     3 1 500 404 202 200,
   C8_notification_error_paths.2.2.2.1
     (fun _ => ⟨fun _ => .reqException "X", fun _ => .timeout⟩) 3 1 500 404
     false [OrchAction.resolve 0, OrchAction.teams "error",
       OrchAction.googleChat "error"] rfl,
   C8_notification_error_paths.2.2.2.2.1
     (fun _ => ⟨fun _ => .reqException "X", fun _ => .timeout⟩) 3 1
     "ConnectionError" (.response 200) 0 (by omega)
     (fun j hj => absurd hj (by omega))
     ⟨"X", [Action.updAttempt 0], rfl⟩,
   C8_notification_error_paths.2.2.2.2.2
     (fun _ => ⟨fun _ => .reqException "X", fun _ => .timeout⟩) 3 1 202
     "SSLError" 0 (by omega) (fun j hj => absurd hj (by omega))
     ⟨"X", [Action.updAttempt 0], rfl⟩⟩

/-! ### Claim C9 -/

/-- C9, counterexample to the claim as stated. The claim says the JSON
body contains a message and the ticket id in every case, but the 401 body
is `{"message": str(e)}` only (line 466) — and the 400 body
(lines 436-439) likewise has no ticket id. Here secret retrieval fails
for ticket "T1": the 401 body carries no value equal to "T1" and no
`dsr_id` key. -/
theorem C9_counterexample :
    main (.parsed "T1") false true
        (fun _ => ⟨fun _ => .timeout, fun _ => .timeout⟩) 3 202 200 1 =
      .ok (⟨401, [("message", "Failed to retrieve secrets")]⟩,
        [MainAction.getSecret]) ∧
    bodyMentions (main (.parsed "T1") false true
        (fun _ => ⟨fun _ => .timeout, fun _ => .timeout⟩) 3 202 200 1)
      "T1" = some false := by
  constructor <;> rfl

/-- C9, amended: the outbound response is 400 with body
`{"message": "Invalid input data", "error": e}` on a malformed payload,
with no secret retrieval and no platform HTTP call (empty action trace);
401 with body `{"message": "Failed to retrieve secrets"}` when either
secret fetch fails, aborting before any subtask processing (only
`getSecret` actions in the trace); 200 when all subtasks resolve and 500
when one fails — and only the 200 and 500 bodies carry the ticket id
(`dsr_id`); the 400 and 401 bodies carry a message but no ticket id. -/
theorem C9_response_contract :
    (∀ e (cOk tOk : Bool) (envs : Nat → SubtaskEnv) (retries t g n : Nat),
      main (.malformed e) cOk tOk envs retries t g n =
        .ok (⟨400, [("message", "Invalid input data"), ("error", e)]⟩, [])) ∧
    (∀ tid (tOk : Bool) (envs : Nat → SubtaskEnv) (retries t g n : Nat),
      main (.parsed tid) false tOk envs retries t g n =
        .ok (⟨401, [("message", "Failed to retrieve secrets")]⟩,
          [MainAction.getSecret])) ∧
    (∀ tid (envs : Nat → SubtaskEnv) (retries t g n : Nat),
      main (.parsed tid) true false envs retries t g n =
        .ok (⟨401, [("message", "Failed to retrieve secrets")]⟩,
          [MainAction.getSecret, MainAction.getSecret])) ∧
    (∀ tid (envs : Nat → SubtaskEnv) (retries t g n : Nat)
        (tr : List OrchAction),
      process_subtasks envs retries t g n = .ok (true, tr) →
      main (.parsed tid) true true envs retries t g n =
        .ok (⟨200,
          [("message",
            "All subtasks processed with notifications sent for failures."),
           ("dsr_id", tid)]⟩,
          [MainAction.getSecret, MainAction.getSecret] ++
            tr.map MainAction.orch)) ∧
    (∀ tid (envs : Nat → SubtaskEnv) (retries t g n : Nat)
        (tr : List OrchAction),
      process_subtasks envs retries t g n = .ok (false, tr) →
      main (.parsed tid) true true envs retries t g n =
        .ok (⟨500,
          [("message", "Failed to process the DSR. Notifications sent."),
           ("dsr_id", tid)]⟩,
          [MainAction.getSecret, MainAction.getSecret] ++
            tr.map MainAction.orch)) := by
  refine ⟨fun e cOk tOk envs retries t g n => rfl,
          fun tid tOk envs retries t g n => rfl,
          fun tid envs retries t g n => rfl, ?_, ?_⟩
  · intro tid envs retries t g n tr h
    simp [main, h]
  · intro tid envs retries t g n tr h
    simp [main, h]

/-- C9 witness: one run per response class — malformed payload (400,
empty trace), token secret fetch failing (401, two fetch attempts, no
orchestrator action), all subtasks resolving (200, body carries the
ticket id), a subtask failing (500, body carries the ticket id). -/
theorem C9_response_contract_witness :
    main (.malformed "bad") true true
        (fun _ => ⟨fun _ => .timeout, fun _ => .timeout⟩) 3 202 200 1 =
      .ok (⟨400, [("message", "Invalid input data"), ("error", "bad")]⟩,
        []) ∧
    main (.parsed "T1") true false
        (fun _ => ⟨fun _ => .timeout, fun _ => .timeout⟩) 3 202 200 1 =
      .ok (⟨401, [("message", "Failed to retrieve secrets")]⟩,
        [MainAction.getSecret, MainAction.getSecret]) ∧
    main (.parsed "T1") true true
        (fun _ => ⟨fun _ => .response 200 (some 0) "",
                   fun _ => .response 200 "t" (.rows 1)⟩) 3 202 200 1 =
      .ok (⟨200,
        [("message",
          "All subtasks processed with notifications sent for failures."),
         ("dsr_id", "T1")]⟩,
        [MainAction.getSecret, MainAction.getSecret,
         MainAction.orch (OrchAction.resolve 0)]) ∧
    main (.parsed "T1") true true
        (fun _ => ⟨fun _ => .reqException "X", fun _ => .timeout⟩)
        3 202 200 1 =
      .ok (⟨500,
        [("message", "Failed to process the DSR. Notifications sent."),
         ("dsr_id", "T1")]⟩,
        [MainAction.getSecret, MainAction.getSecret,
         MainAction.orch (OrchAction.resolve 0),
         MainAction.orch (OrchAction.teams "info"),
         MainAction.orch (OrchAction.googleChat "info")]) :=
  ⟨C9_response_contract.1 "bad" true true
      (fun _ => ⟨fun _ => .timeout, fun _ => .timeout⟩) 3 202 200 1,
   C9_response_contract.2.2.1 "T1"
      (fun _ => ⟨fun _ => .timeout, fun _ => .timeout⟩) 3 202 200 1,
   (C9_response_contract.2.2.2.1 "T1"
      (fun _ => ⟨fun _ => .response 200 (some 0) "",
                 fun _ => .response 200 "t" (.rows 1)⟩) 3 202 200 1
      [OrchAction.resolve 0] rfl).trans (by rfl),
   (C9_response_contract.2.2.2.2 "T1"
      (fun _ => ⟨fun _ => .reqException "X", fun _ => .timeout⟩) 3 202 200 1
      [OrchAction.resolve 0, OrchAction.teams "info",
       OrchAction.googleChat "info"] rfl).trans (by rfl)⟩

/-! ### Claim C10 -/

/-- C10, confirmed: a verification poll answered HTTP 200 with a body from
which `["data"][0]` cannot be read raises an exception that the
verification client's handlers (only `Timeout` and `RequestException`,
lines 216-231), the resolver (same two handlers, lines 298-302) and the
orchestrator and `main` (which guard only payload parsing and
`RuntimeError` from secret retrieval) never catch: it escapes
`was_subtask_removed`, `update_subtask`, `process_subtasks` and the whole
invocation instead of being classified as a verification miss for the
current subtask. -/
theorem C10_malformed_verification_body_escapes :
    was_subtask_removed (.response 200 "nojson" (.malformed "KeyError data")) =
      .error "KeyError data" ∧
    update_subtask (fun _ => .response 200 (some 0) "")
        (fun _ => .response 200 "nojson" (.malformed "KeyError data")) 3 =
      .error "KeyError data" ∧
    process_subtasks
        (fun _ => ⟨fun _ => .response 200 (some 0) "",
                   fun _ => .response 200 "nojson" (.malformed "KeyError data")⟩)
        3 202 200 1 = .error "KeyError data" ∧
    main (.parsed "T1") true true
        (fun _ => ⟨fun _ => .response 200 (some 0) "",
                   fun _ => .response 200 "nojson" (.malformed "KeyError data")⟩)
        3 202 200 1 = .error "KeyError data" :=
  ⟨rfl, rfl, rfl, rfl⟩

end Securiti
